import Mathlib

/-!
Verification of the optimization engine of `Medicina.py` (class
`SistemaCitasMedicas`): demand estimation (`demanda_realista`,
`demanda_cuadratica`), the wait-time model (`tiempo_espera_realista`), the
iterative staffing search (`calcular_medicos_optimos_realista`,
`calcular_medicos_necesarios`), the daily planner
(`optimizar_distribucion_diaria`) and the report aggregator
(`generar_reporte_optimizacion`).

Embedding conventions:
* Python floats are modelled as exact rationals (`ℚ`); the single irrational
  operation of the source, `sobrecarga ** 1.8`, is modelled by `Real.rpow`,
  so wait times live in `ℝ` (and in `EReal`, whose `⊤` models the
  `float('inf')` sentinel returned for a zero staff count).
* `int(x)` (Python truncation toward zero) is `pyInt`.
* The instance attribute `self.medicos_disponibles` (default `4318`) is the
  configurable global staff cap; it is passed explicitly to the planner and
  report functions.  At cap `0` the Python planner raises `ZeroDivisionError`
  when computing `utilizacion_recursos`, so planner-level theorems assume a
  cap of at least `1`.
* `round(x, n)` display rounding is modelled with `round` on the exact value
  (Python uses banker's rounding, which can differ on exact midpoints; no
  claim depends on a rounded field's value).
* Dictionaries are modelled as association lists in the source's insertion
  order; the unused `tiempo_promedio` entries of `tipos_consulta` are omitted.
-/

open Classical

/-- Python `int(q)` on an exact rational: truncation toward zero. -/
def pyInt (q : ℚ) : ℤ := if q < 0 then -(Int.floor (-q)) else Int.floor q

/-- Python `int(x)` on a real value (used by `calcular_medicos_necesarios`). -/
noncomputable def pyIntR (x : ℝ) : ℤ := if x < 0 then -(Int.floor (-x)) else Int.floor x

/-- `self.ausentismo_pacientes = 0.35`. -/
def ausentismo_pacientes : ℚ := 35/100

/-- `self.deficit_personal = 0.22`. -/
def deficit_personal : ℚ := 22/100

/-- `self.eficiencia_actual = 0.65`. -/
def eficiencia_actual : ℚ := 65/100

/-- `self.capacidad_medico_hora = 8`. -/
def capacidad_medico_hora : ℚ := 8

/-- `self.k_inversa = 120`. -/
def k_inversa : ℚ := 120

/-- `self.a_cuadratica = -0.5`. -/
def a_cuadratica : ℚ := -(1/2)

/-- `self.b_cuadratica = 20`. -/
def b_cuadratica : ℚ := 20

/-- `self.c_cuadratica = -25`. -/
def c_cuadratica : ℚ := -25

/-- `self.patrones_demanda_real`, read through
`self.patrones_demanda_real.get(int(hora), 20)`: the empirical hour → demand
table with default `20` for any hour outside `6..22`. -/
def patrones_demanda_real (h : ℤ) : ℕ :=
  if h = 6 then 25 else if h = 7 then 45 else if h = 8 then 65 else if h = 9 then 85 else
  if h = 10 then 75 else if h = 11 then 60 else if h = 12 then 50 else if h = 13 then 55 else
  if h = 14 then 70 else if h = 15 then 80 else if h = 16 then 90 else if h = 17 then 85 else
  if h = 18 then 70 else if h = 19 then 55 else if h = 20 then 40 else if h = 21 then 30 else
  if h = 22 then 20 else 20

/-- The `factor_dia` computation of `demanda_realista`: weekday factor (with
Python truthiness: `None` and `""` give `1.0`), then halved on holidays. -/
def factor_dia (dia_semana : Option String) (es_festivo : Bool) : ℚ :=
  let base : ℚ :=
    match dia_semana with
    | none => 1
    | some d =>
      if d = "lunes" ∨ d = "martes" then 5/4
      else if d = "viernes" then 11/10
      else if d = "sábado" ∨ d = "domingo" then 3/4
      else 1
  if es_festivo then base * (1/2) else base

/-- `demanda_realista(hora, dia_semana, es_festivo)`: base demand from the
empirical table, weekday/holiday factor, 35% no-show reduction, truncated and
floored at 1. -/
def demanda_realista (hora : ℤ) (dia_semana : Option String) (es_festivo : Bool) : ℕ :=
  let demanda_base : ℚ := patrones_demanda_real hora
  let demanda_con_ausentismo : ℚ :=
    demanda_base * factor_dia dia_semana es_festivo * (1 - ausentismo_pacientes)
  max 1 (pyInt demanda_con_ausentismo).toNat

/-- `demanda_cuadratica(hora)`: 70% empirical / 30% quadratic blend, clamped
at 0. -/
def demanda_cuadratica (hora : ℤ) : ℚ :=
  let demanda_original : ℚ :=
    a_cuadratica * (hora : ℚ)^2 + b_cuadratica * (hora : ℚ) + c_cuadratica
  let demanda_real : ℚ := demanda_realista hora none false
  let demanda_final : ℚ := (7/10) * demanda_real + (3/10) * max 0 demanda_original
  max 0 demanda_final

/-- `self.tipos_consulta` in insertion order: (name, proporcion,
factor_complejidad). -/
def tipos_consulta : List (String × ℚ × ℚ) :=
  [("emergencia", 1/4, 3/2), ("especializada", 7/20, 6/5), ("general", 2/5, 1)]

/-- `self.tipos_consulta.get(tipo_consulta, {}).get('factor_complejidad', 1.0)`. -/
def factor_complejidad (tipo : String) : ℚ :=
  ((tipos_consulta.find? (fun t => t.1 == tipo)).map (fun t => t.2.2)).getD 1

/-- `medicos_efectivos = num_medicos * (1 - self.deficit_personal)`. -/
def medicos_efectivos (num_medicos : ℕ) : ℚ := (num_medicos : ℚ) * (1 - deficit_personal)

/-- `capacidad_real = medicos_efectivos * self.capacidad_medico_hora *
self.eficiencia_actual`. -/
def capacidad_real (num_medicos : ℕ) : ℚ :=
  medicos_efectivos num_medicos * capacidad_medico_hora * eficiencia_actual

/-- The body of `tiempo_espera_realista` for a positive staff count: the
non-saturated branch (congestion formula below utilization 0.95, plateau `6.0`
from 0.95 on), the saturated branch `min(12.0, sobrecarga ** 1.8)`, and the
final floor `max(0.1, tiempo_base)`. -/
noncomputable def tiempo_espera_realista_fin (num_medicos : ℕ) (demanda : ℚ)
    (tipo_consulta : String) : ℝ :=
  let fc := factor_complejidad tipo_consulta
  let cr := capacidad_real num_medicos
  let tiempo_base : ℝ :=
    if demanda * fc ≤ cr then
      let utilizacion : ℚ := demanda * fc / cr
      if utilizacion < 19/20 then
        (((utilizacion / (1 - utilizacion)) / medicos_efectivos num_medicos : ℚ) : ℝ)
      else 6
    else
      let sobrecarga : ℚ := demanda * fc / cr
      min 12 ((sobrecarga : ℝ) ^ (1.8 : ℝ))
  max (1/10) tiempo_base

/-- `tiempo_espera_realista(num_medicos, demanda, tipo_consulta)`: the
`float('inf')` sentinel for `num_medicos <= 0`, otherwise the finite model. -/
noncomputable def tiempo_espera_realista (num_medicos : ℕ) (demanda : ℚ)
    (tipo_consulta : String) : EReal :=
  if num_medicos = 0 then ⊤
  else ((tiempo_espera_realista_fin num_medicos demanda tipo_consulta : ℝ) : EReal)

/-- Which branch of `tiempo_espera_realista` a staff count falls in for a fixed
demand and consultation type. -/
inductive Regimen where
  | saturado
  | casiSaturado
  | noSaturado
  deriving DecidableEq

/-- The branch selector of `tiempo_espera_realista`: saturated
(`capacidad_real < demanda * fc`), near-saturated plateau
(`0.95 ≤ utilizacion`), or non-saturated. -/
def regimen (num_medicos : ℕ) (demanda : ℚ) (tipo_consulta : String) : Regimen :=
  let fc := factor_complejidad tipo_consulta
  let cr := capacidad_real num_medicos
  if demanda * fc ≤ cr then
    (if demanda * fc / cr < 19/20 then .noSaturado else .casiSaturado)
  else .saturado

/-- `range(1, min(200, int(demanda * 3)))`: the candidate staff counts scanned
by `calcular_medicos_optimos_realista`. -/
def lista_candidatos (demanda : ℚ) : List ℕ :=
  List.range' 1 ((min 200 (pyInt (demanda * 3))).toNat - 1)

/-- The scan loop of `calcular_medicos_optimos_realista`: track the candidate
with the smallest absolute difference to the target (strict improvement only),
and stop at the first candidate whose wait meets the target.  `none` models
the initial `mejor_diferencia = float('inf')`. -/
noncomputable def buscar_medicos (demanda : ℚ) (tiempo_objetivo : ℝ) (tipo : String) :
    List ℕ → ℕ → Option ℝ → ℕ
  | [], mejor_medicos, _ => mejor_medicos
  | medicos :: resto, mejor_medicos, mejor_diferencia =>
    let tiempo_calculado := tiempo_espera_realista_fin medicos demanda tipo
    let diferencia := |tiempo_calculado - tiempo_objetivo|
    let mejora : Prop :=
      match mejor_diferencia with
      | none => True
      | some b => diferencia < b
    let paso : ℕ × Option ℝ :=
      if mejora then (medicos, some diferencia) else (mejor_medicos, mejor_diferencia)
    if tiempo_calculado ≤ tiempo_objetivo then paso.1
    else buscar_medicos demanda tiempo_objetivo tipo resto paso.1 paso.2

/-- `calcular_medicos_optimos_realista(demanda, tiempo_objetivo, tipo_consulta)`. -/
noncomputable def calcular_medicos_optimos_realista (demanda : ℚ) (tiempo_objetivo : ℝ)
    (tipo_consulta : String) : ℕ :=
  buscar_medicos demanda tiempo_objetivo tipo_consulta (lista_candidatos demanda) 1 none

/-- `calcular_medicos_necesarios(tiempo_objetivo)`: `none` models the
`float('inf')` return for a non-positive target; otherwise the 70/30 blend of
the iterative search (at demand 50) with `k_inversa / tiempo_objetivo`,
truncated and floored at 1. -/
noncomputable def calcular_medicos_necesarios (tiempo_objetivo : ℝ) : Option ℕ :=
  if tiempo_objetivo ≤ 0 then none
  else
    let medicos_original : ℝ := (k_inversa : ℝ) / tiempo_objetivo
    let medicos_mejorado : ℕ := calcular_medicos_optimos_realista 50 tiempo_objetivo "general"
    some (max 1 (pyIntR ((7/10) * (medicos_mejorado : ℝ) + (3/10) * medicos_original))).toNat

/-- The part of the candidate list the scan actually visits: every candidate up
to and including the first one whose wait meets the target (the whole list if
none does). -/
noncomputable def tramo_escaneado (demanda : ℚ) (tiempo_objetivo : ℝ) (tipo : String) :
    List ℕ → List ℕ
  | [] => []
  | m :: resto =>
    if tiempo_espera_realista_fin m demanda tipo ≤ tiempo_objetivo then [m]
    else m :: tramo_escaneado demanda tiempo_objetivo tipo resto

/-- `abs(tiempo_calculado - tiempo_objetivo)` for candidate `m`. -/
noncomputable def dif_objetivo (demanda : ℚ) (tiempo_objetivo : ℝ) (tipo : String) (m : ℕ) : ℝ :=
  |tiempo_espera_realista_fin m demanda tipo - tiempo_objetivo|

/-- The per-type loop of `optimizar_distribucion_diaria`: for each consultation
type with a positive demand share, run the staffing search (target `2.0`) and
the wait model; return the `distribucion_tipos` entries
(tipo, demanda, medicos, tiempo_espera), the staff total `medicos_totales`,
and `tiempo_promedio_ponderado`. -/
noncomputable def distribuir_tipos (demanda_total : ℚ) :
    List (String × ℚ × ℚ) → List (String × ℕ × ℕ × ℝ) × ℕ × ℝ
  | [] => ([], 0, 0)
  | t :: resto =>
    let prev := distribuir_tipos demanda_total resto
    let demanda_tipo := (pyInt (demanda_total * t.2.1)).toNat
    if 0 < demanda_tipo then
      let medicos_tipo := calcular_medicos_optimos_realista (demanda_tipo : ℚ) 2 t.1
      let tiempo_tipo := tiempo_espera_realista_fin medicos_tipo (demanda_tipo : ℚ) t.1
      ((t.1, demanda_tipo, medicos_tipo, tiempo_tipo) :: prev.1,
       medicos_tipo + prev.2.1,
       tiempo_tipo * t.2.1 + prev.2.2)
    else prev

/-- Total staff over the `distribucion_tipos` entries of an hour: the
unconstrained (pre-clamp) staff requirement of that hour. -/
def suma_medicos (l : List (String × ℕ × ℕ × ℝ)) : ℕ := (l.map (fun e => e.2.2.1)).sum

/-- One entry of the list returned by `optimizar_distribucion_diaria`
(the `hora_formato` string is omitted). -/
structure HourlyAllocation where
  hora : ℤ
  demanda_predicha : ℕ
  medicos_asignados : ℕ
  tiempo_espera : EReal
  distribucion_tipos : List (String × ℕ × ℕ × ℝ)
  utilizacion_recursos : ℚ
  es_factible : Bool

/-- `round(q, 1)` on an exact rational. -/
def redondear1 (q : ℚ) : ℚ := ((round (q * 10) : ℤ) : ℚ) / 10

/-- `round(x, 2)` lifted to `EReal` (`round(inf, 2)` is `inf` in Python). -/
noncomputable def redondear2E (x : EReal) : EReal :=
  if x = ⊤ then ⊤ else if x = ⊥ then ⊥
  else (((round (x.toReal * 100) : ℤ) : ℝ) / 100 : ℝ)

/-- The body of `optimizar_distribucion_diaria` for one hour, with the global
staff cap `medicos_disponibles` passed explicitly: demand, per-type
distribution, the clamp of `medicos_totales` to the cap (with the aggregate
wait recomputed under the capped staffing), and the emitted record. -/
noncomputable def distribucion_hora (medicos_disponibles : ℕ) (hora : ℤ) : HourlyAllocation :=
  let demanda_total : ℚ := max 0 (demanda_cuadratica hora)
  let r := distribuir_tipos demanda_total tipos_consulta
  let medicos_totales : ℕ :=
    if medicos_disponibles < r.2.1 then medicos_disponibles else r.2.1
  let tiempo_promedio_ponderado : EReal :=
    if medicos_disponibles < r.2.1 then
      tiempo_espera_realista medicos_disponibles demanda_total "general"
    else ((r.2.2 : ℝ) : EReal)
  { hora := hora
    demanda_predicha := (pyInt demanda_total).toNat
    medicos_asignados := min medicos_totales medicos_disponibles
    tiempo_espera := redondear2E tiempo_promedio_ponderado
    distribucion_tipos := r.1
    utilizacion_recursos := redondear1 ((medicos_totales : ℚ) / (medicos_disponibles : ℚ) * 100)
    es_factible := decide (medicos_totales ≤ medicos_disponibles) }

/-- `optimizar_distribucion_diaria()`: one `HourlyAllocation` per hour of
`range(6, 23)`. -/
noncomputable def optimizar_distribucion_diaria (medicos_disponibles : ℕ) :
    List HourlyAllocation :=
  (List.range' 6 17).map (fun h => distribucion_hora medicos_disponibles (h : ℤ))

/-- The metrics of `generar_reporte_optimizacion` that are integral or boolean
(the floating-point display aggregates — mean wait, improvement percentage,
average utilization, efficiency ratios — are omitted; no claim depends on
them). -/
structure Metricas where
  total_pacientes_diarios : ℕ
  total_medicos_usados : ℕ
  horas_factibles : ℕ
  horas_criticas : ℕ
  es_implementable : Bool
  deficit_maximo_medicos : ℤ
  demanda_maxima : ℕ

/-- `generar_reporte_optimizacion()` with the cap passed explicitly:
feasibility counts, implementability, and the maximum staffing deficit
(`max(..., default=0)` over hours whose assigned staff exceeds the cap). -/
noncomputable def generar_reporte_optimizacion (medicos_disponibles : ℕ) : Metricas :=
  let distribucion := optimizar_distribucion_diaria medicos_disponibles
  { total_pacientes_diarios := (distribucion.map (fun d => d.demanda_predicha)).sum
    total_medicos_usados := (distribucion.map (fun d => d.medicos_asignados)).sum
    horas_factibles := (distribucion.filter (fun d => d.es_factible)).length
    horas_criticas :=
      (distribucion.filter (fun d => decide ((90 : ℚ) < d.utilizacion_recursos))).length
    es_implementable := distribucion.all (fun d => d.es_factible)
    deficit_maximo_medicos :=
      ((distribucion.filter (fun d => decide (medicos_disponibles < d.medicos_asignados))).map
        (fun d => (d.medicos_asignados : ℤ) - (medicos_disponibles : ℤ))).foldr max 0
    demanda_maxima := (distribucion.map (fun d => d.demanda_predicha)).foldr max 0 }

/-! ## Basic facts about the demand model -/

lemma patrones_fuera (h : ℤ) (hh : h < 6 ∨ 22 < h) : patrones_demanda_real h = 20 := by
  unfold patrones_demanda_real
  repeat rw [if_neg (by omega)]

lemma factor_complejidad_general : factor_complejidad "general" = 1 := by
  simp [factor_complejidad, tipos_consulta, List.find?]

lemma factor_complejidad_emergencia : factor_complejidad "emergencia" = 3/2 := by
  simp [factor_complejidad, tipos_consulta, List.find?]

lemma factor_complejidad_especializada : factor_complejidad "especializada" = 6/5 := by
  simp [factor_complejidad, tipos_consulta, List.find?]

lemma factor_complejidad_casos (tipo : String) :
    factor_complejidad tipo = 1 ∨ factor_complejidad tipo = 6/5 ∨
      factor_complejidad tipo = 3/2 := by
  unfold factor_complejidad tipos_consulta
  rcases eq_or_ne ("emergencia" : String) tipo with h1 | h1
  · simp [List.find?, ← h1]
  · rcases eq_or_ne ("especializada" : String) tipo with h2 | h2
    · simp [List.find?, ← h2, beq_eq_false_iff_ne.mpr h1]
    · rcases eq_or_ne ("general" : String) tipo with h3 | h3
      · simp [List.find?, ← h3, beq_eq_false_iff_ne.mpr h1, beq_eq_false_iff_ne.mpr h2]
      · simp [List.find?, beq_eq_false_iff_ne.mpr h1, beq_eq_false_iff_ne.mpr h2,
          beq_eq_false_iff_ne.mpr h3]

lemma factor_complejidad_pos (tipo : String) : 0 < factor_complejidad tipo := by
  rcases factor_complejidad_casos tipo with h | h | h <;> rw [h] <;> norm_num

/-- C8: for every hour in the valid domain 6..22 and any weekday/holiday
arguments, `demanda_realista` returns an integer demand of at least 1. -/
theorem c8_demanda_minima (hora : ℤ) (dia_semana : Option String) (es_festivo : Bool)
    (h1 : 6 ≤ hora) (h2 : hora ≤ 22) :
    1 ≤ demanda_realista hora dia_semana es_festivo := by
  unfold demanda_realista
  exact le_max_left _ _

theorem c8_demanda_minima_witness :
    (6 : ℤ) ≤ 16 ∧ (16 : ℤ) ≤ 22 ∧ 1 ≤ demanda_realista 16 (some "lunes") true :=
  ⟨by norm_num, by norm_num,
    c8_demanda_minima 16 (some "lunes") true (by norm_num) (by norm_num)⟩

/-- C5 counterexample: for hours outside 6..22, `demanda_realista` does not
reject the input; it silently uses the default base demand 20 of the lookup
(so hour 5 and hour 23 both give `max(1, int(20 * 0.65)) = 13`), and 13 is
not the value of either boundary hour (hour 6 gives 16), so no boundary
clamping happens either. -/
theorem c5_counterexample :
    demanda_realista 5 none false = 13 ∧ demanda_realista 23 none false = 13 ∧
      demanda_realista 6 none false = 16 := by
  refine ⟨?_, ?_, ?_⟩ <;>
  · norm_num [demanda_realista, patrones_demanda_real, factor_dia,
      ausentismo_pacientes, pyInt]
    rfl

/-- C5 amended: for every hour outside the domain 6..22 (and any weekday and
holiday arguments), `demanda_realista` does not raise any error: it silently
substitutes the default base demand 20 of `patrones_demanda_real.get` and
returns the normal demand value computed from that base. -/
theorem c5_hora_invalida (hora : ℤ) (dia_semana : Option String) (es_festivo : Bool)
    (hh : hora < 6 ∨ 22 < hora) :
    demanda_realista hora dia_semana es_festivo =
      max 1 (pyInt ((20 : ℚ) * factor_dia dia_semana es_festivo *
        (1 - ausentismo_pacientes))).toNat := by
  unfold demanda_realista
  rw [patrones_fuera hora hh]
  norm_num

theorem c5_hora_invalida_witness :
    ((5 : ℤ) < 6 ∨ (22 : ℤ) < 5) ∧
      demanda_realista 5 none false =
        max 1 (pyInt ((20 : ℚ) * factor_dia none false * (1 - ausentismo_pacientes))).toNat :=
  ⟨Or.inl (by norm_num), c5_hora_invalida 5 none false (Or.inl (by norm_num))⟩

/-! ## Basic facts about the wait-time model -/

lemma capacidad_real_eq (m : ℕ) : capacidad_real m = 507 * m / 125 := by
  unfold capacidad_real medicos_efectivos deficit_personal capacidad_medico_hora
    eficiencia_actual
  ring

lemma medicos_efectivos_eq (m : ℕ) : medicos_efectivos m = 39 * m / 50 := by
  unfold medicos_efectivos deficit_personal
  ring

lemma capacidad_real_pos (m : ℕ) (hm : 1 ≤ m) : 0 < capacidad_real m := by
  rw [capacidad_real_eq]
  have h : (1 : ℚ) ≤ (m : ℚ) := by exact_mod_cast hm
  linarith

lemma capacidad_real_mono (m1 m2 : ℕ) (h : m1 ≤ m2) :
    capacidad_real m1 ≤ capacidad_real m2 := by
  rw [capacidad_real_eq, capacidad_real_eq]
  have h' : (m1 : ℚ) ≤ (m2 : ℚ) := by exact_mod_cast h
  linarith

lemma tiempo_fin_sat (m : ℕ) (d : ℚ) (tipo : String)
    (h : capacidad_real m < d * factor_complejidad tipo) :
    tiempo_espera_realista_fin m d tipo =
      max (1/10)
        (min 12 (((d * factor_complejidad tipo / capacidad_real m : ℚ) : ℝ) ^ (1.8 : ℝ))) := by
  simp only [tiempo_espera_realista_fin]
  rw [if_neg (not_le.mpr h)]

lemma tiempo_fin_plateau (m : ℕ) (d : ℚ) (tipo : String)
    (h1 : d * factor_complejidad tipo ≤ capacidad_real m)
    (h2 : ¬(d * factor_complejidad tipo / capacidad_real m < 19/20)) :
    tiempo_espera_realista_fin m d tipo = 6 := by
  simp only [tiempo_espera_realista_fin]
  rw [if_pos h1, if_neg h2]
  norm_num

lemma tiempo_fin_unsat (m : ℕ) (d : ℚ) (tipo : String)
    (h1 : d * factor_complejidad tipo ≤ capacidad_real m)
    (h2 : d * factor_complejidad tipo / capacidad_real m < 19/20) :
    tiempo_espera_realista_fin m d tipo =
      max (1/10)
        (((d * factor_complejidad tipo / capacidad_real m /
            (1 - d * factor_complejidad tipo / capacidad_real m) /
            medicos_efectivos m : ℚ) : ℝ)) := by
  simp only [tiempo_espera_realista_fin]
  rw [if_pos h1, if_pos h2]

lemma regimen_saturado_iff (m : ℕ) (d : ℚ) (tipo : String) :
    regimen m d tipo = .saturado ↔
      ¬(d * factor_complejidad tipo ≤ capacidad_real m) := by
  simp only [regimen]
  split_ifs <;> simp_all

lemma regimen_casi_iff (m : ℕ) (d : ℚ) (tipo : String) :
    regimen m d tipo = .casiSaturado ↔
      (d * factor_complejidad tipo ≤ capacidad_real m ∧
        ¬(d * factor_complejidad tipo / capacidad_real m < 19/20)) := by
  simp only [regimen]
  split_ifs <;> simp_all

lemma regimen_no_saturado_iff (m : ℕ) (d : ℚ) (tipo : String) :
    regimen m d tipo = .noSaturado ↔
      (d * factor_complejidad tipo ≤ capacidad_real m ∧
        d * factor_complejidad tipo / capacidad_real m < 19/20) := by
  simp only [regimen]
  split_ifs <;> simp_all

lemma valor_no_saturado (x t : ℚ) (ht : 0 < t) (hd : 125 * x < 507 * t) :
    x / (507 * t / 125) / (1 - x / (507 * t / 125)) / (39 * t / 50) =
      6250 * x / (39 * t * (507 * t - 125 * x)) := by
  have h1 : (507 : ℚ) * t ≠ 0 := by positivity
  have h2 : (507 : ℚ) * t - 125 * x ≠ 0 := by linarith
  have key1 : x / (507 * t / 125) = 125 * x / (507 * t) := by
    rw [div_div_eq_mul_div]
    ring_nf
  have key2 : 1 - 125 * x / (507 * t) = (507 * t - 125 * x) / (507 * t) := by
    field_simp
  have key3 : 125 * x / (507 * t) / ((507 * t - 125 * x) / (507 * t)) =
      125 * x / (507 * t - 125 * x) := by
    rw [div_div_div_cancel_right₀]
    exact h1
  have key4 : 125 * x / (507 * t - 125 * x) / (39 * t / 50) =
      6250 * x / (39 * t * (507 * t - 125 * x)) := by
    rw [div_div_eq_mul_div, div_mul_eq_mul_div, div_div]
    ring_nf
  rw [key1, key2, key3, key4]

/-- C1 counterexample: the wait estimate is not non-increasing in the staff
count.  At demand 70 (general consultations), 17 staff fall in the saturated
branch with wait `(70/68.952)^1.8 < 6`, while 18 staff fall in the
near-saturated plateau with wait exactly `6.0`: the wait increases. -/
theorem c1_counterexample :
    (17 : ℕ) < 18 ∧
      tiempo_espera_realista_fin 17 70 "general" <
        tiempo_espera_realista_fin 18 70 "general" := by
  refine ⟨by norm_num, ?_⟩
  have h18 : tiempo_espera_realista_fin 18 70 "general" = 6 := by
    apply tiempo_fin_plateau <;>
      rw [factor_complejidad_general, capacidad_real_eq] <;> norm_num
  have hsat : capacidad_real 17 < 70 * factor_complejidad "general" := by
    rw [factor_complejidad_general, capacidad_real_eq]; norm_num
  rw [h18, tiempo_fin_sat 17 70 "general" hsat]
  have hq : (70 * factor_complejidad "general" / capacidad_real 17 : ℚ) = 8750/8619 := by
    rw [factor_complejidad_general, capacidad_real_eq]; norm_num
  rw [hq]
  have h1s : (1 : ℝ) ≤ ((8750/8619 : ℚ) : ℝ) := by push_cast; norm_num
  have hub : ((8750/8619 : ℚ) : ℝ) ^ (1.8 : ℝ) ≤ ((8750/8619 : ℚ) : ℝ) ^ (2 : ℝ) :=
    Real.rpow_le_rpow_of_exponent_le h1s (by norm_num)
  have h2 : ((8750/8619 : ℚ) : ℝ) ^ (2 : ℝ) < 6 := by
    rw [show (2 : ℝ) = ((2 : ℕ) : ℝ) by norm_num, Real.rpow_natCast]
    have hs : ((8750/8619 : ℚ) : ℝ) ≤ 51/50 := by push_cast; norm_num
    nlinarith [hs, h1s]
  have hmin : min (12 : ℝ) (((8750/8619 : ℚ) : ℝ) ^ (1.8 : ℝ)) < 6 :=
    lt_of_le_of_lt (le_trans (min_le_right _ _) hub) h2
  exact max_lt (by norm_num) hmin

/-- C1 amended: the wait estimate is non-increasing in the staff count as long
as both staff counts select the same branch of the model (both saturated, both
on the near-saturation plateau, or both non-saturated); across a branch
boundary it can increase (see the counterexample). -/
theorem c1_monotonia_regimen (m1 m2 : ℕ) (demanda : ℚ) (tipo : String)
    (hm : 1 ≤ m1) (h12 : m1 ≤ m2) (hd : 0 < demanda)
    (hr : regimen m1 demanda tipo = regimen m2 demanda tipo) :
    tiempo_espera_realista_fin m2 demanda tipo ≤
      tiempo_espera_realista_fin m1 demanda tipo := by
  have hm2 : 1 ≤ m2 := le_trans hm h12
  have hfc := factor_complejidad_pos tipo
  have hx : 0 < demanda * factor_complejidad tipo := mul_pos hd hfc
  have hc1 : 0 < capacidad_real m1 := capacidad_real_pos m1 hm
  have hc2 : 0 < capacidad_real m2 := capacidad_real_pos m2 hm2
  have hcm : capacidad_real m1 ≤ capacidad_real m2 := capacidad_real_mono m1 m2 h12
  cases hR1 : regimen m1 demanda tipo with
  | saturado =>
    have hR2 : regimen m2 demanda tipo = .saturado := by rw [← hr, hR1]
    have hs1 : capacidad_real m1 < demanda * factor_complejidad tipo :=
      not_le.mp ((regimen_saturado_iff m1 demanda tipo).mp hR1)
    have hs2 : capacidad_real m2 < demanda * factor_complejidad tipo :=
      not_le.mp ((regimen_saturado_iff m2 demanda tipo).mp hR2)
    rw [tiempo_fin_sat m1 demanda tipo hs1, tiempo_fin_sat m2 demanda tipo hs2]
    have hs21 : demanda * factor_complejidad tipo / capacidad_real m2 ≤
        demanda * factor_complejidad tipo / capacidad_real m1 := by
      gcongr
    have hpow : ((demanda * factor_complejidad tipo / capacidad_real m2 : ℚ) : ℝ) ^ (1.8 : ℝ) ≤
        ((demanda * factor_complejidad tipo / capacidad_real m1 : ℚ) : ℝ) ^ (1.8 : ℝ) :=
      Real.rpow_le_rpow (by positivity) (by exact_mod_cast hs21) (by norm_num)
    exact max_le_max le_rfl (min_le_min le_rfl hpow)
  | casiSaturado =>
    have hR2 : regimen m2 demanda tipo = .casiSaturado := by rw [← hr, hR1]
    obtain ⟨ha1, hb1⟩ := (regimen_casi_iff m1 demanda tipo).mp hR1
    obtain ⟨ha2, hb2⟩ := (regimen_casi_iff m2 demanda tipo).mp hR2
    rw [tiempo_fin_plateau m1 demanda tipo ha1 hb1,
      tiempo_fin_plateau m2 demanda tipo ha2 hb2]
  | noSaturado =>
    have hR2 : regimen m2 demanda tipo = .noSaturado := by rw [← hr, hR1]
    obtain ⟨ha1, hb1⟩ := (regimen_no_saturado_iff m1 demanda tipo).mp hR1
    obtain ⟨ha2, hb2⟩ := (regimen_no_saturado_iff m2 demanda tipo).mp hR2
    rw [tiempo_fin_unsat m1 demanda tipo ha1 hb1,
      tiempo_fin_unsat m2 demanda tipo ha2 hb2]
    apply max_le_max le_rfl
    have ha : (1 : ℚ) ≤ (m1 : ℚ) := by exact_mod_cast hm
    have hab : (m1 : ℚ) ≤ (m2 : ℚ) := by exact_mod_cast h12
    have hu1 : 2500 * (demanda * factor_complejidad tipo) < 9633 * (m1 : ℚ) := by
      rw [capacidad_real_eq] at hb1
      rw [div_lt_iff (by linarith : (0:ℚ) < 507 * (m1:ℚ) / 125)] at hb1
      linarith
    have hu2 : 2500 * (demanda * factor_complejidad tipo) < 9633 * (m2 : ℚ) := by
      rw [capacidad_real_eq] at hb2
      rw [div_lt_iff (by linarith : (0:ℚ) < 507 * (m2:ℚ) / 125)] at hb2
      linarith
    have key : (demanda * factor_complejidad tipo / capacidad_real m2 /
        (1 - demanda * factor_complejidad tipo / capacidad_real m2) /
        medicos_efectivos m2 : ℚ) ≤
        demanda * factor_complejidad tipo / capacidad_real m1 /
        (1 - demanda * factor_complejidad tipo / capacidad_real m1) /
        medicos_efectivos m1 := by
      rw [capacidad_real_eq, capacidad_real_eq, medicos_efectivos_eq, medicos_efectivos_eq]
      rw [valor_no_saturado _ _ (by linarith) (by linarith),
        valor_no_saturado _ _ (by linarith) (by linarith)]
      have hden1 : (0:ℚ) < 39 * (m1:ℚ) * (507 * (m1:ℚ) - 125 * (demanda * factor_complejidad tipo)) := by
        apply mul_pos (by linarith)
        linarith
      have hfactor : (0:ℚ) ≤ ((m2:ℚ) - m1) * (507 * ((m1:ℚ) + m2) - 125 * (demanda * factor_complejidad tipo)) := by
        apply mul_nonneg (by linarith)
        linarith
      have hdenle : 39 * (m1:ℚ) * (507 * (m1:ℚ) - 125 * (demanda * factor_complejidad tipo)) ≤
          39 * (m2:ℚ) * (507 * (m2:ℚ) - 125 * (demanda * factor_complejidad tipo)) := by
        nlinarith [hfactor]
      gcongr
    exact_mod_cast key

theorem c1_monotonia_regimen_witness :
    (1 : ℕ) ≤ 5 ∧ (5 : ℕ) ≤ 6 ∧ (0 : ℚ) < 70 ∧
      regimen 5 70 "general" = regimen 6 70 "general" ∧
      tiempo_espera_realista_fin 6 70 "general" ≤ tiempo_espera_realista_fin 5 70 "general" := by
  have e5 : regimen 5 70 "general" = .saturado := by
    rw [regimen_saturado_iff, factor_complejidad_general, capacidad_real_eq]
    norm_num
  have e6 : regimen 6 70 "general" = .saturado := by
    rw [regimen_saturado_iff, factor_complejidad_general, capacidad_real_eq]
    norm_num
  refine ⟨by norm_num, by norm_num, by norm_num, by rw [e5, e6], ?_⟩
  exact c1_monotonia_regimen 5 6 70 "general" (by norm_num) (by norm_num) (by norm_num)
    (by rw [e5, e6])

lemma cota_no_saturado (m D : ℕ) (fc : ℚ) (hfc : fc = 1 ∨ fc = 6/5 ∨ fc = 3/2)
    (hm : 1 ≤ m) (hu : 2500 * ((D : ℚ) * fc) < 9633 * (m : ℚ)) :
    6250 * ((D : ℚ) * fc) + 58500 * (m : ℚ) * ((D : ℚ) * fc) ≤ 237276 * (m : ℚ)^2 := by
  rcases Nat.lt_or_ge m 3 with h3 | h3
  · interval_cases m
    · rcases hfc with h | h | h <;> subst h
      · have hD : D ≤ 3 := by
          by_contra hcon
          have h4 : (4 : ℚ) ≤ (D : ℚ) := by exact_mod_cast Nat.succ_le_of_lt (Nat.lt_of_not_le hcon)
          push_cast at hu
          nlinarith
        have hDq : (D : ℚ) ≤ 3 := by exact_mod_cast hD
        push_cast
        nlinarith
      · have hD : D ≤ 3 := by
          by_contra hcon
          have h4 : (4 : ℚ) ≤ (D : ℚ) := by exact_mod_cast Nat.succ_le_of_lt (Nat.lt_of_not_le hcon)
          push_cast at hu
          nlinarith
        have hDq : (D : ℚ) ≤ 3 := by exact_mod_cast hD
        push_cast
        nlinarith
      · have hD : D ≤ 2 := by
          by_contra hcon
          have h4 : (3 : ℚ) ≤ (D : ℚ) := by exact_mod_cast Nat.succ_le_of_lt (Nat.lt_of_not_le hcon)
          push_cast at hu
          nlinarith
        have hDq : (D : ℚ) ≤ 2 := by exact_mod_cast hD
        push_cast
        nlinarith
    · rcases hfc with h | h | h <;> subst h
      · have hD : D ≤ 7 := by
          by_contra hcon
          have h4 : (8 : ℚ) ≤ (D : ℚ) := by exact_mod_cast Nat.succ_le_of_lt (Nat.lt_of_not_le hcon)
          push_cast at hu
          nlinarith
        have hDq : (D : ℚ) ≤ 7 := by exact_mod_cast hD
        push_cast
        nlinarith
      · have hD : D ≤ 6 := by
          by_contra hcon
          have h4 : (7 : ℚ) ≤ (D : ℚ) := by exact_mod_cast Nat.succ_le_of_lt (Nat.lt_of_not_le hcon)
          push_cast at hu
          nlinarith
        have hDq : (D : ℚ) ≤ 6 := by exact_mod_cast hD
        push_cast
        nlinarith
      · have hD : D ≤ 5 := by
          by_contra hcon
          have h4 : (6 : ℚ) ≤ (D : ℚ) := by exact_mod_cast Nat.succ_le_of_lt (Nat.lt_of_not_le hcon)
          push_cast at hu
          nlinarith
        have hDq : (D : ℚ) ≤ 5 := by exact_mod_cast hD
        push_cast
        nlinarith
  · have hm3 : (3 : ℚ) ≤ (m : ℚ) := by exact_mod_cast h3
    have hm0 : (0 : ℚ) ≤ (m : ℚ) := by positivity
    have hP : (0 : ℚ) ≤ 9633 * (m : ℚ) - 2500 * ((D : ℚ) * fc) := by linarith
    have hPm : (0 : ℚ) ≤ (9633 * (m : ℚ) - 2500 * ((D : ℚ) * fc)) * (m : ℚ) :=
      mul_nonneg hP hm0
    have hQ : (0 : ℚ) ≤ ((m : ℚ) - 3) * (m : ℚ) := mul_nonneg (by linarith) hm0
    nlinarith [hPm, hP, hQ, hm0]

/-- C6 counterexample: for a fractional demand the unsaturated branch is not
clamped above by 12.  At demand 3.8 and one staff member (general
consultations) the utilization is 475/507 < 0.95 and the returned wait is
11875/624 ≈ 19.03 hours, outside the claimed interval [0.1, 12]. -/
theorem c6_counterexample :
    (0 : ℚ) < 19/5 ∧ (12 : ℝ) < tiempo_espera_realista_fin 1 (19/5) "general" := by
  refine ⟨by norm_num, ?_⟩
  have h1 : (19/5 : ℚ) * factor_complejidad "general" ≤ capacidad_real 1 := by
    rw [factor_complejidad_general, capacidad_real_eq]; norm_num
  have h2 : (19/5 : ℚ) * factor_complejidad "general" / capacidad_real 1 < 19/20 := by
    rw [factor_complejidad_general, capacidad_real_eq]; norm_num
  rw [tiempo_fin_unsat 1 (19/5) "general" h1 h2]
  have hval : ((19/5 : ℚ) * factor_complejidad "general" / capacidad_real 1 /
      (1 - (19/5 : ℚ) * factor_complejidad "general" / capacidad_real 1) /
      medicos_efectivos 1) = 11875/624 := by
    rw [factor_complejidad_general, capacidad_real_eq, medicos_efectivos_eq]
    norm_num
  rw [hval]
  have hlt : (12 : ℝ) < ((11875/624 : ℚ) : ℝ) := by push_cast; norm_num
  exact lt_max_iff.mpr (Or.inr hlt)

/-- C6 amended: for every staff count ≥ 1, every integer demand ≥ 1 (the
demands the engine actually passes are integers), and every consultation
type, the wait returned by `tiempo_espera_realista` lies in [0.1, 12].  For
fractional demand the unsaturated branch has no upper clamp and the bound can
fail (see the counterexample). -/
theorem c6_cotas (m D : ℕ) (tipo : String) (hm : 1 ≤ m) (hD : 1 ≤ D) :
    (1/10 : ℝ) ≤ tiempo_espera_realista_fin m (D : ℚ) tipo ∧
      tiempo_espera_realista_fin m (D : ℚ) tipo ≤ 12 := by
  have hcr : 0 < capacidad_real m := capacidad_real_pos m hm
  by_cases h1 : (D : ℚ) * factor_complejidad tipo ≤ capacidad_real m
  · by_cases h2 : (D : ℚ) * factor_complejidad tipo / capacidad_real m < 19/20
    · rw [tiempo_fin_unsat m (D : ℚ) tipo h1 h2]
      constructor
      · exact le_max_left _ _
      · apply max_le (by norm_num)
        have hmq : (1 : ℚ) ≤ (m : ℚ) := by exact_mod_cast hm
        have hu : 2500 * ((D : ℚ) * factor_complejidad tipo) < 9633 * (m : ℚ) := by
          rw [capacidad_real_eq] at h2
          rw [div_lt_iff (by linarith : (0:ℚ) < 507 * (m:ℚ) / 125)] at h2
          linarith
        have hcota := cota_no_saturado m D (factor_complejidad tipo)
          (factor_complejidad_casos tipo) hm hu
        have key : ((D : ℚ) * factor_complejidad tipo / capacidad_real m /
            (1 - (D : ℚ) * factor_complejidad tipo / capacidad_real m) /
            medicos_efectivos m) ≤ 12 := by
          rw [capacidad_real_eq, medicos_efectivos_eq,
            valor_no_saturado _ _ (by linarith) (by linarith)]
          rw [div_le_iff (by nlinarith : (0:ℚ) < 39 * (m:ℚ) *
            (507 * (m:ℚ) - 125 * ((D : ℚ) * factor_complejidad tipo)))]
          nlinarith [hcota]
        exact_mod_cast key
    · rw [tiempo_fin_plateau m (D : ℚ) tipo h1 h2]
      norm_num
  · rw [tiempo_fin_sat m (D : ℚ) tipo (not_le.mp h1)]
    constructor
    · exact le_max_left _ _
    · exact max_le (by norm_num) (le_trans (min_le_left _ _) (by norm_num))

theorem c6_cotas_witness :
    (1 : ℕ) ≤ 4 ∧ (1 : ℕ) ≤ 70 ∧
      ((1/10 : ℝ) ≤ tiempo_espera_realista_fin 4 ((70 : ℕ) : ℚ) "general" ∧
        tiempo_espera_realista_fin 4 ((70 : ℕ) : ℚ) "general" ≤ 12) :=
  ⟨by norm_num, by norm_num, c6_cotas 4 70 "general" (by norm_num) (by norm_num)⟩

/-! ## Structure of the staffing search -/

lemma buscar_nil (D : ℚ) (obj : ℝ) (tipo : String) (mejor : ℕ) (bd : Option ℝ) :
    buscar_medicos D obj tipo [] mejor bd = mejor := rfl

lemma buscar_cons (D : ℚ) (obj : ℝ) (tipo : String) (a : ℕ) (l : List ℕ) (mejor : ℕ)
    (bd : Option ℝ) :
    buscar_medicos D obj tipo (a :: l) mejor bd =
      (let dif := dif_objetivo D obj tipo a
       let paso : ℕ × Option ℝ :=
         if (match bd with | none => True | some b => dif < b) then (a, some dif)
         else (mejor, bd)
       if tiempo_espera_realista_fin a D tipo ≤ obj then paso.1
       else buscar_medicos D obj tipo l paso.1 paso.2) := rfl

lemma tramo_nil (D : ℚ) (obj : ℝ) (tipo : String) :
    tramo_escaneado D obj tipo [] = [] := rfl

lemma tramo_cons (D : ℚ) (obj : ℝ) (tipo : String) (a : ℕ) (l : List ℕ) :
    tramo_escaneado D obj tipo (a :: l) =
      (if tiempo_espera_realista_fin a D tipo ≤ obj then [a]
       else a :: tramo_escaneado D obj tipo l) := rfl

lemma buscar_ge_uno (D : ℚ) (obj : ℝ) (tipo : String) :
    ∀ (L : List ℕ) (mejor : ℕ) (bd : Option ℝ), 1 ≤ mejor → (∀ m ∈ L, 1 ≤ m) →
      1 ≤ buscar_medicos D obj tipo L mejor bd := by
  intro L
  induction L with
  | nil =>
    intro mejor bd h _
    rw [buscar_nil]
    exact h
  | cons a l ih =>
    intro mejor bd h1 hL
    have ha : 1 ≤ a := hL a (List.mem_cons_self a l)
    have hl : ∀ m ∈ l, 1 ≤ m := fun m hm => hL m (List.mem_cons_of_mem a hm)
    rw [buscar_cons]
    simp only []
    by_cases hmej : (match bd with
      | none => True
      | some b => dif_objetivo D obj tipo a < b)
    · rw [if_pos hmej]
      by_cases hstop : tiempo_espera_realista_fin a D tipo ≤ obj
      · rw [if_pos hstop]
        exact ha
      · rw [if_neg hstop]
        exact ih a (some (dif_objetivo D obj tipo a)) ha hl
    · rw [if_neg hmej]
      by_cases hstop : tiempo_espera_realista_fin a D tipo ≤ obj
      · rw [if_pos hstop]
        exact h1
      · rw [if_neg hstop]
        exact ih mejor bd h1 hl

lemma optimos_ge_uno (D : ℚ) (obj : ℝ) (tipo : String) :
    1 ≤ calcular_medicos_optimos_realista D obj tipo := by
  unfold calcular_medicos_optimos_realista
  apply buscar_ge_uno D obj tipo (lista_candidatos D) 1 none le_rfl
  intro m hm
  unfold lista_candidatos at hm
  exact (List.mem_range'_1.mp hm).1

lemma buscar_invariante (D : ℚ) (obj : ℝ) (tipo : String) :
    ∀ (L : List ℕ) (mejor : ℕ),
      (buscar_medicos D obj tipo L mejor (some (dif_objetivo D obj tipo mejor)) = mejor ∨
        buscar_medicos D obj tipo L mejor (some (dif_objetivo D obj tipo mejor)) ∈
          tramo_escaneado D obj tipo L) ∧
      dif_objetivo D obj tipo
          (buscar_medicos D obj tipo L mejor (some (dif_objetivo D obj tipo mejor))) ≤
        dif_objetivo D obj tipo mejor ∧
      ∀ x ∈ tramo_escaneado D obj tipo L,
        dif_objetivo D obj tipo
            (buscar_medicos D obj tipo L mejor (some (dif_objetivo D obj tipo mejor))) ≤
          dif_objetivo D obj tipo x := by
  intro L
  induction L with
  | nil =>
    intro mejor
    rw [buscar_nil, tramo_nil]
    refine ⟨Or.inl rfl, le_refl _, ?_⟩
    intro x hx
    exact absurd hx (List.not_mem_nil x)
  | cons a l ih =>
    intro mejor
    rw [buscar_cons, tramo_cons]
    simp only []
    by_cases hmej : dif_objetivo D obj tipo a < dif_objetivo D obj tipo mejor
    · rw [if_pos hmej]
      by_cases hstop : tiempo_espera_realista_fin a D tipo ≤ obj
      · rw [if_pos hstop, if_pos hstop]
        refine ⟨Or.inr (List.mem_singleton_self a), le_of_lt hmej, ?_⟩
        intro x hx
        rw [List.mem_singleton] at hx
        rw [hx]
      · rw [if_neg hstop, if_neg hstop]
        obtain ⟨hmem, hle, hmin⟩ := ih a
        refine ⟨?_, le_trans hle (le_of_lt hmej), ?_⟩
        · rcases hmem with h | h
          · refine Or.inr ?_
            rw [h]
            exact List.mem_cons_self a _
          · exact Or.inr (List.mem_cons_of_mem a h)
        · intro x hx
          rcases List.mem_cons.mp hx with h | h
          · rw [h]
            exact hle
          · exact hmin x h
    · rw [if_neg hmej]
      by_cases hstop : tiempo_espera_realista_fin a D tipo ≤ obj
      · rw [if_pos hstop, if_pos hstop]
        refine ⟨Or.inl rfl, le_refl _, ?_⟩
        intro x hx
        rw [List.mem_singleton] at hx
        rw [hx]
        exact not_lt.mp hmej
      · rw [if_neg hstop, if_neg hstop]
        obtain ⟨hmem, hle, hmin⟩ := ih mejor
        refine ⟨?_, hle, ?_⟩
        · rcases hmem with h | h
          · exact Or.inl h
          · exact Or.inr (List.mem_cons_of_mem a h)
        · intro x hx
          rcases List.mem_cons.mp hx with h | h
          · rw [h]
            exact le_trans hle (not_lt.mp hmej)
          · exact hmin x h

lemma optimos_caracterizacion (D : ℚ) (obj : ℝ) (tipo : String)
    (hL : lista_candidatos D ≠ []) :
    calcular_medicos_optimos_realista D obj tipo ∈
        tramo_escaneado D obj tipo (lista_candidatos D) ∧
      ∀ x ∈ tramo_escaneado D obj tipo (lista_candidatos D),
        dif_objetivo D obj tipo (calcular_medicos_optimos_realista D obj tipo) ≤
          dif_objetivo D obj tipo x := by
  obtain ⟨a, l, hAL⟩ := List.exists_cons_of_ne_nil hL
  unfold calcular_medicos_optimos_realista
  rw [hAL, buscar_cons, tramo_cons]
  simp only []
  rw [if_pos trivial]
  by_cases hstop : tiempo_espera_realista_fin a D tipo ≤ obj
  · rw [if_pos hstop, if_pos hstop]
    refine ⟨List.mem_singleton_self a, ?_⟩
    intro x hx
    rw [List.mem_singleton] at hx
    rw [hx]
  · rw [if_neg hstop, if_neg hstop]
    obtain ⟨hmem, hle, hmin⟩ := buscar_invariante D obj tipo l a
    constructor
    · rcases hmem with h | h
      · rw [h]
        exact List.mem_cons_self a _
      · exact List.mem_cons_of_mem a h
    · intro x hx
      rcases List.mem_cons.mp hx with h | h
      · rw [h]
        exact hle
      · exact hmin x h

lemma pyInt_de_nonneg (q : ℚ) (h : 0 ≤ q) : pyInt q = Int.floor q := by
  unfold pyInt
  rw [if_neg (not_lt.mpr h)]

lemma uno_mem_lista (D : ℚ) (hD : 1 ≤ D) : 1 ∈ lista_candidatos D := by
  have h0 : (0 : ℚ) ≤ D * 3 := by linarith
  have h3 : (3 : ℤ) ≤ pyInt (D * 3) := by
    rw [pyInt_de_nonneg _ h0]
    exact Int.le_floor.mpr (by push_cast; linarith)
  have hmin : (3 : ℤ) ≤ min 200 (pyInt (D * 3)) := le_min (by norm_num) h3
  unfold lista_candidatos
  rw [List.mem_range'_1]
  omega

lemma lista_ne_nil (D : ℚ) (hD : 1 ≤ D) : lista_candidatos D ≠ [] :=
  List.ne_nil_of_mem (uno_mem_lista D hD)

lemma tramo_le_de_exito (D : ℚ) (obj : ℝ) (tipo : String) :
    ∀ (L : List ℕ), List.Pairwise (· ≤ ·) L → ∀ s0 ∈ L,
      tiempo_espera_realista_fin s0 D tipo ≤ obj →
      ∀ x ∈ tramo_escaneado D obj tipo L, x ≤ s0 := by
  intro L
  induction L with
  | nil =>
    intro _ s0 hs0 _ x _
    exact absurd hs0 (List.not_mem_nil s0)
  | cons a l ih =>
    intro hpw s0 hs0 hhit x hx
    obtain ⟨hhead, htail⟩ := List.pairwise_cons.mp hpw
    rw [tramo_cons] at hx
    by_cases hstop : tiempo_espera_realista_fin a D tipo ≤ obj
    · rw [if_pos hstop] at hx
      rw [List.mem_singleton] at hx
      subst hx
      rcases List.mem_cons.mp hs0 with h | h
      · rw [h]
      · exact hhead s0 h
    · rw [if_neg hstop] at hx
      rcases List.mem_cons.mp hx with h | h
      · subst h
        rcases List.mem_cons.mp hs0 with h2 | h2
        · exact absurd (h2 ▸ hhit) hstop
        · exact hhead s0 h2
      · rcases List.mem_cons.mp hs0 with h2 | h2
        · exact absurd (h2 ▸ hhit) hstop
        · exact ih htail s0 h2 hhit x h

/-- C9: round-trip — for every demand ≥ 1 and every staff count `s0` inside
the scanned candidate range, searching for the wait that `s0` itself achieves
returns at most `s0`: the search never inflates a known-sufficient staffing
level.  (The scan visits candidates in increasing order and stops no later
than at `s0`, whose wait trivially meets the target.) -/
theorem c9_roundtrip (D : ℚ) (tipo : String) (s0 : ℕ) (hD : 1 ≤ D)
    (hs0 : s0 ∈ lista_candidatos D) :
    calcular_medicos_optimos_realista D (tiempo_espera_realista_fin s0 D tipo) tipo ≤ s0 := by
  have hne : lista_candidatos D ≠ [] := List.ne_nil_of_mem hs0
  obtain ⟨hmem, _⟩ :=
    optimos_caracterizacion D (tiempo_espera_realista_fin s0 D tipo) tipo hne
  apply tramo_le_de_exito D (tiempo_espera_realista_fin s0 D tipo) tipo
    (lista_candidatos D) ?_ s0 hs0 le_rfl _ hmem
  unfold lista_candidatos
  exact (List.pairwise_lt_range' _ _).imp le_of_lt

lemma lista_dos : lista_candidatos 2 = [1, 2, 3, 4, 5] := by
  have h : pyInt ((2 : ℚ) * 3) = 6 := by norm_num [pyInt]
  unfold lista_candidatos
  rw [h]
  rfl

theorem c9_roundtrip_witness :
    (1 : ℚ) ≤ 2 ∧ (2 : ℕ) ∈ lista_candidatos 2 ∧
      calcular_medicos_optimos_realista 2
        (tiempo_espera_realista_fin 2 2 "general") "general" ≤ 2 := by
  have hmem : (2 : ℕ) ∈ lista_candidatos 2 := by
    rw [lista_dos]
    decide
  exact ⟨by norm_num, hmem, c9_roundtrip 2 "general" 2 (by norm_num) hmem⟩

/-! ## Concrete wait values at demand 2 (general consultations) -/

lemma tiempo_uno_dos : tiempo_espera_realista_fin 1 2 "general" = ((12500/10023 : ℚ) : ℝ) := by
  have h1 : (2 : ℚ) * factor_complejidad "general" ≤ capacidad_real 1 := by
    rw [factor_complejidad_general, capacidad_real_eq]; norm_num
  have h2 : (2 : ℚ) * factor_complejidad "general" / capacidad_real 1 < 19/20 := by
    rw [factor_complejidad_general, capacidad_real_eq]; norm_num
  rw [tiempo_fin_unsat 1 2 "general" h1 h2]
  have hval : ((2 : ℚ) * factor_complejidad "general" / capacidad_real 1 /
      (1 - (2 : ℚ) * factor_complejidad "general" / capacidad_real 1) /
      medicos_efectivos 1) = 12500/10023 := by
    rw [factor_complejidad_general, capacidad_real_eq, medicos_efectivos_eq]
    norm_num
  rw [hval, max_eq_right]
  push_cast
  norm_num

lemma tiempo_dos_dos : tiempo_espera_realista_fin 2 2 "general" = ((3125/14898 : ℚ) : ℝ) := by
  have h1 : (2 : ℚ) * factor_complejidad "general" ≤ capacidad_real 2 := by
    rw [factor_complejidad_general, capacidad_real_eq]; norm_num
  have h2 : (2 : ℚ) * factor_complejidad "general" / capacidad_real 2 < 19/20 := by
    rw [factor_complejidad_general, capacidad_real_eq]; norm_num
  rw [tiempo_fin_unsat 2 2 "general" h1 h2]
  have hval : ((2 : ℚ) * factor_complejidad "general" / capacidad_real 2 /
      (1 - (2 : ℚ) * factor_complejidad "general" / capacidad_real 2) /
      medicos_efectivos 2) = 3125/14898 := by
    rw [factor_complejidad_general, capacidad_real_eq, medicos_efectivos_eq]
    norm_num
  rw [hval, max_eq_right]
  push_cast
  norm_num

lemma tiempo_tres_dos : tiempo_espera_realista_fin 3 2 "general" = (1/10 : ℝ) := by
  have h1 : (2 : ℚ) * factor_complejidad "general" ≤ capacidad_real 3 := by
    rw [factor_complejidad_general, capacidad_real_eq]; norm_num
  have h2 : (2 : ℚ) * factor_complejidad "general" / capacidad_real 3 < 19/20 := by
    rw [factor_complejidad_general, capacidad_real_eq]; norm_num
  rw [tiempo_fin_unsat 3 2 "general" h1 h2]
  have hval : ((2 : ℚ) * factor_complejidad "general" / capacidad_real 3 /
      (1 - (2 : ℚ) * factor_complejidad "general" / capacidad_real 3) /
      medicos_efectivos 3) = 12500/148707 := by
    rw [factor_complejidad_general, capacidad_real_eq, medicos_efectivos_eq]
    norm_num
  rw [hval, max_eq_left]
  push_cast
  norm_num

lemma tiempo_cuatro_dos : tiempo_espera_realista_fin 4 2 "general" = (1/10 : ℝ) := by
  have h1 : (2 : ℚ) * factor_complejidad "general" ≤ capacidad_real 4 := by
    rw [factor_complejidad_general, capacidad_real_eq]; norm_num
  have h2 : (2 : ℚ) * factor_complejidad "general" / capacidad_real 4 < 19/20 := by
    rw [factor_complejidad_general, capacidad_real_eq]; norm_num
  rw [tiempo_fin_unsat 4 2 "general" h1 h2]
  have hval : ((2 : ℚ) * factor_complejidad "general" / capacidad_real 4 /
      (1 - (2 : ℚ) * factor_complejidad "general" / capacidad_real 4) /
      medicos_efectivos 4) = 3125/69342 := by
    rw [factor_complejidad_general, capacidad_real_eq, medicos_efectivos_eq]
    norm_num
  rw [hval, max_eq_left]
  push_cast
  norm_num

lemma tiempo_cinco_dos : tiempo_espera_realista_fin 5 2 "general" = (1/10 : ℝ) := by
  have h1 : (2 : ℚ) * factor_complejidad "general" ≤ capacidad_real 5 := by
    rw [factor_complejidad_general, capacidad_real_eq]; norm_num
  have h2 : (2 : ℚ) * factor_complejidad "general" / capacidad_real 5 < 19/20 := by
    rw [factor_complejidad_general, capacidad_real_eq]; norm_num
  rw [tiempo_fin_unsat 5 2 "general" h1 h2]
  have hval : ((2 : ℚ) * factor_complejidad "general" / capacidad_real 5 /
      (1 - (2 : ℚ) * factor_complejidad "general" / capacidad_real 5) /
      medicos_efectivos 5) = 500/17823 := by
    rw [factor_complejidad_general, capacidad_real_eq, medicos_efectivos_eq]
    norm_num
  rw [hval, max_eq_left]
  push_cast
  norm_num

lemma optimos_dos_uno : calcular_medicos_optimos_realista 2 1 "general" = 1 := by
  unfold calcular_medicos_optimos_realista
  rw [lista_dos]
  rw [buscar_cons]
  simp only []
  rw [if_pos trivial]
  have hn1 : ¬(tiempo_espera_realista_fin 1 2 "general" ≤ (1 : ℝ)) := by
    rw [tiempo_uno_dos]
    push_cast
    norm_num
  rw [if_neg hn1]
  rw [buscar_cons]
  simp only []
  have hnm : ¬(dif_objetivo 2 1 "general" 2 < dif_objetivo 2 1 "general" 1) := by
    unfold dif_objetivo
    rw [tiempo_uno_dos, tiempo_dos_dos]
    push_cast
    rw [abs_of_nonpos (by norm_num), abs_of_nonneg (by norm_num)]
    norm_num
  rw [if_neg hnm]
  have hy2 : tiempo_espera_realista_fin 2 2 "general" ≤ (1 : ℝ) := by
    rw [tiempo_dos_dos]
    push_cast
    norm_num
  rw [if_pos hy2]

/-- C3 counterexample: at demand 2 with target wait 1 (general consultations)
the scanned candidate 2 meets the target (wait ≈ 0.21 ≤ 1), i.e. the target is
reachable within the search bound, yet the search returns candidate 1, whose
wait ≈ 1.247 exceeds the target: the tracked minimal-difference candidate
(candidate 1, |1.247−1| ≈ 0.247 < |0.21−1| ≈ 0.79) wins over the early-exit
candidate. -/
theorem c3_counterexample :
    (2 : ℕ) ∈ lista_candidatos 2 ∧
      tiempo_espera_realista_fin 2 2 "general" ≤ 1 ∧
      calcular_medicos_optimos_realista 2 1 "general" = 1 ∧
      ¬(tiempo_espera_realista_fin (calcular_medicos_optimos_realista 2 1 "general")
          2 "general" ≤ 1) := by
  refine ⟨?_, ?_, optimos_dos_uno, ?_⟩
  · rw [lista_dos]
    decide
  · rw [tiempo_dos_dos]
    push_cast
    norm_num
  · rw [optimos_dos_uno, tiempo_uno_dos]
    push_cast
    norm_num

/-- C3 amended: for every demand ≥ 1 and target wait > 0, the search returns
the candidate with the minimal absolute difference `|wait − target|` among
the candidates actually scanned — the scan visits candidates in increasing
order and stops at the first whose wait meets the target (`tramo_escaneado`).
The returned candidate need not itself meet the target even when a scanned
candidate does (see the counterexample). -/
theorem c3_busqueda (D : ℚ) (obj : ℝ) (tipo : String) (hD : 1 ≤ D) (hobj : 0 < obj) :
    calcular_medicos_optimos_realista D obj tipo ∈
        tramo_escaneado D obj tipo (lista_candidatos D) ∧
      ∀ x ∈ tramo_escaneado D obj tipo (lista_candidatos D),
        dif_objetivo D obj tipo (calcular_medicos_optimos_realista D obj tipo) ≤
          dif_objetivo D obj tipo x :=
  optimos_caracterizacion D obj tipo (lista_ne_nil D hD)

theorem c3_busqueda_witness :
    (1 : ℚ) ≤ 2 ∧ (0 : ℝ) < 1 ∧
      (calcular_medicos_optimos_realista 2 1 "general" ∈
          tramo_escaneado 2 1 "general" (lista_candidatos 2) ∧
        ∀ x ∈ tramo_escaneado 2 1 "general" (lista_candidatos 2),
          dif_objetivo 2 1 "general" (calcular_medicos_optimos_realista 2 1 "general") ≤
            dif_objetivo 2 1 "general" x) :=
  ⟨by norm_num, by norm_num, c3_busqueda 2 1 "general" (by norm_num) (by norm_num)⟩

lemma optimos_dos_cero : calcular_medicos_optimos_realista 2 0 "general" = 3 := by
  unfold calcular_medicos_optimos_realista
  rw [lista_dos]
  rw [buscar_cons]
  simp only []
  rw [if_pos trivial]
  have hn1 : ¬(tiempo_espera_realista_fin 1 2 "general" ≤ (0 : ℝ)) := by
    rw [tiempo_uno_dos]; push_cast; norm_num
  rw [if_neg hn1]
  rw [buscar_cons]
  simp only []
  have hm2 : dif_objetivo 2 0 "general" 2 < dif_objetivo 2 0 "general" 1 := by
    unfold dif_objetivo
    rw [tiempo_uno_dos, tiempo_dos_dos]
    push_cast
    rw [sub_zero, sub_zero, abs_of_nonneg (by norm_num), abs_of_nonneg (by norm_num)]
    norm_num
  rw [if_pos hm2]
  have hn2 : ¬(tiempo_espera_realista_fin 2 2 "general" ≤ (0 : ℝ)) := by
    rw [tiempo_dos_dos]; push_cast; norm_num
  rw [if_neg hn2]
  rw [buscar_cons]
  simp only []
  have hm3 : dif_objetivo 2 0 "general" 3 < dif_objetivo 2 0 "general" 2 := by
    unfold dif_objetivo
    rw [tiempo_dos_dos, tiempo_tres_dos]
    push_cast
    rw [sub_zero, sub_zero, abs_of_nonneg (by norm_num), abs_of_nonneg (by norm_num)]
    norm_num
  rw [if_pos hm3]
  have hn3 : ¬(tiempo_espera_realista_fin 3 2 "general" ≤ (0 : ℝ)) := by
    rw [tiempo_tres_dos]; norm_num
  rw [if_neg hn3]
  rw [buscar_cons]
  simp only []
  have hm4 : ¬(dif_objetivo 2 0 "general" 4 < dif_objetivo 2 0 "general" 3) := by
    unfold dif_objetivo
    rw [tiempo_tres_dos, tiempo_cuatro_dos]
    exact lt_irrefl _
  have hn4 : ¬(tiempo_espera_realista_fin 4 2 "general" ≤ (0 : ℝ)) := by
    rw [tiempo_cuatro_dos]; norm_num
  rw [if_neg hm4, if_neg hn4]
  rw [buscar_cons]
  simp only []
  have hm5 : ¬(dif_objetivo 2 0 "general" 5 < dif_objetivo 2 0 "general" 3) := by
    unfold dif_objetivo
    rw [tiempo_tres_dos, tiempo_cinco_dos]
    exact lt_irrefl _
  have hn5 : ¬(tiempo_espera_realista_fin 5 2 "general" ≤ (0 : ℝ)) := by
    rw [tiempo_cinco_dos]; norm_num
  rw [if_neg hm5, if_neg hn5]
  rw [buscar_nil]

/-- C4 counterexample: for the non-positive target wait 0 the staffing search
raises no error and returns a normal staff count: at demand 2 (general) it
scans its whole candidate range and returns 3, the scanned candidate whose
wait is closest to 0. -/
theorem c4_counterexample :
    (0 : ℝ) ≤ 0 ∧ calcular_medicos_optimos_realista 2 0 "general" = 3 :=
  ⟨le_rfl, optimos_dos_cero⟩

/-- C4 amended: for every target wait ≤ 0, no `InvalidInput` error exists:
`calcular_medicos_necesarios` returns the `float('inf')` sentinel (modelled
`none`) instead of raising, and `calcular_medicos_optimos_realista` performs
no validation at all and still returns a staff count ≥ 1. -/
theorem c4_sin_error (obj : ℝ) (h : obj ≤ 0) :
    calcular_medicos_necesarios obj = none ∧
      ∀ (D : ℚ) (tipo : String), 1 ≤ calcular_medicos_optimos_realista D obj tipo := by
  constructor
  · unfold calcular_medicos_necesarios
    rw [if_pos h]
  · intro D tipo
    exact optimos_ge_uno D obj tipo

theorem c4_sin_error_witness :
    (0 : ℝ) ≤ 0 ∧
      (calcular_medicos_necesarios 0 = none ∧
        ∀ (D : ℚ) (tipo : String), 1 ≤ calcular_medicos_optimos_realista D 0 tipo) :=
  ⟨le_rfl, c4_sin_error 0 le_rfl⟩

/-! ## Structure of the daily planner -/

lemma distribuir_nil (dt : ℚ) : distribuir_tipos dt [] = ([], 0, 0) := rfl

lemma distribuir_cons (dt : ℚ) (t : String × ℚ × ℚ) (resto : List (String × ℚ × ℚ)) :
    distribuir_tipos dt (t :: resto) =
      (let prev := distribuir_tipos dt resto
       let demanda_tipo := (pyInt (dt * t.2.1)).toNat
       if 0 < demanda_tipo then
         ((t.1, demanda_tipo,
            calcular_medicos_optimos_realista (demanda_tipo : ℚ) 2 t.1,
            tiempo_espera_realista_fin
              (calcular_medicos_optimos_realista (demanda_tipo : ℚ) 2 t.1)
              (demanda_tipo : ℚ) t.1) :: prev.1,
          calcular_medicos_optimos_realista (demanda_tipo : ℚ) 2 t.1 + prev.2.1,
          tiempo_espera_realista_fin
              (calcular_medicos_optimos_realista (demanda_tipo : ℚ) 2 t.1)
              (demanda_tipo : ℚ) t.1 * t.2.1 + prev.2.2)
       else prev) := rfl

lemma distribuir_suma (dt : ℚ) :
    ∀ ts : List (String × ℚ × ℚ),
      (distribuir_tipos dt ts).2.1 = suma_medicos (distribuir_tipos dt ts).1 := by
  intro ts
  induction ts with
  | nil => rfl
  | cons t resto ih =>
    rw [distribuir_cons]
    simp only []
    by_cases h : 0 < (pyInt (dt * t.2.1)).toNat
    · rw [if_pos h]
      simp only [suma_medicos, List.map_cons, List.sum_cons]
      rw [ih]
      rfl
    · rw [if_neg h]
      exact ih

lemma distribucion_hora_dist (cap : ℕ) (hora : ℤ) :
    (distribucion_hora cap hora).distribucion_tipos =
      (distribuir_tipos (max 0 (demanda_cuadratica hora)) tipos_consulta).1 := rfl

lemma distribucion_hora_es_factible (cap : ℕ) (hora : ℤ) :
    (distribucion_hora cap hora).es_factible = true := by
  unfold distribucion_hora
  simp only []
  by_cases h : cap < (distribuir_tipos (max 0 (demanda_cuadratica hora)) tipos_consulta).2.1
  · rw [if_pos h]
    simp
  · rw [if_neg h]
    simp only [decide_eq_true_eq]
    exact Nat.not_lt.mp h

lemma distribucion_hora_asignados_le (cap : ℕ) (hora : ℤ) :
    (distribucion_hora cap hora).medicos_asignados ≤ cap := by
  unfold distribucion_hora
  simp only []
  exact min_le_right _ _

lemma distribucion_hora_clamp (cap : ℕ) (hora : ℤ)
    (h : cap < suma_medicos (distribucion_hora cap hora).distribucion_tipos) :
    (distribucion_hora cap hora).medicos_asignados = cap := by
  rw [distribucion_hora_dist, ← distribuir_suma] at h
  unfold distribucion_hora
  simp only []
  rw [if_pos h, min_self]

/-- C7: in every plan the planner produces, the staff assigned to each hour
never exceeds the global staff cap (`min(medicos_totales,
self.medicos_disponibles)` is emitted).  A cap of at least 1 is assumed since
the Python planner divides by the cap. -/
theorem c7_tope_global (cap : ℕ) (r : HourlyAllocation) (hcap : 1 ≤ cap)
    (hr : r ∈ optimizar_distribucion_diaria cap) : r.medicos_asignados ≤ cap := by
  obtain ⟨n, _, rfl⟩ := List.mem_map.mp hr
  exact distribucion_hora_asignados_le cap n

theorem c7_tope_global_witness :
    (1 : ℕ) ≤ 4318 ∧
      distribucion_hora 4318 ((6 : ℕ) : ℤ) ∈ optimizar_distribucion_diaria 4318 ∧
      (distribucion_hora 4318 ((6 : ℕ) : ℤ)).medicos_asignados ≤ 4318 := by
  have hmem : distribucion_hora 4318 ((6 : ℕ) : ℤ) ∈ optimizar_distribucion_diaria 4318 :=
    List.mem_map.mpr ⟨6, by decide, rfl⟩
  exact ⟨by norm_num, hmem, c7_tope_global 4318 _ (by norm_num) hmem⟩

/-- C2 amended: the feasibility flag is computed only after `medicos_totales`
has been clamped to the cap, so every emitted hour has `es_factible = true` —
even when the unconstrained requirement (the sum of the per-type staff counts
stored in `distribucion_tipos`) exceeds the cap; in that case the hour is
emitted with `medicos_asignados` equal to the cap but still flagged feasible. -/
theorem c2_factibilidad (cap : ℕ) (r : HourlyAllocation) (hcap : 1 ≤ cap)
    (hr : r ∈ optimizar_distribucion_diaria cap) :
    r.es_factible = true ∧
      (cap < suma_medicos r.distribucion_tipos → r.medicos_asignados = cap) := by
  obtain ⟨n, _, rfl⟩ := List.mem_map.mp hr
  exact ⟨distribucion_hora_es_factible cap n, fun h => distribucion_hora_clamp cap n h⟩

theorem c2_factibilidad_witness :
    (1 : ℕ) ≤ 4318 ∧
      distribucion_hora 4318 ((6 : ℕ) : ℤ) ∈ optimizar_distribucion_diaria 4318 ∧
      ((distribucion_hora 4318 ((6 : ℕ) : ℤ)).es_factible = true ∧
        (4318 < suma_medicos (distribucion_hora 4318 ((6 : ℕ) : ℤ)).distribucion_tipos →
          (distribucion_hora 4318 ((6 : ℕ) : ℤ)).medicos_asignados = 4318)) := by
  have hmem : distribucion_hora 4318 ((6 : ℕ) : ℤ) ∈ optimizar_distribucion_diaria 4318 :=
    List.mem_map.mpr ⟨6, by decide, rfl⟩
  exact ⟨by norm_num, hmem, c2_factibilidad 4318 _ (by norm_num) hmem⟩

lemma demanda_dieciseis : max (0 : ℚ) (demanda_cuadratica 16) = 907/10 := by
  have h : demanda_realista 16 none false = 58 := by
    norm_num [demanda_realista, patrones_demanda_real, factor_dia,
      ausentismo_pacientes, pyInt]
    rfl
  have hq : demanda_cuadratica 16 = 907/10 := by
    unfold demanda_cuadratica
    rw [h]
    simp only []
    push_cast
    rw [show a_cuadratica * (16 : ℚ)^2 + b_cuadratica * 16 + c_cuadratica = 167 from by
      norm_num [a_cuadratica, b_cuadratica, c_cuadratica]]
    rw [max_eq_right (by norm_num : (0 : ℚ) ≤ 167)]
    rw [show (7 : ℚ)/10 * 58 + 3/10 * 167 = 907/10 from by norm_num]
    rw [max_eq_right (by norm_num : (0 : ℚ) ≤ 907/10)]
  rw [hq, max_eq_right]
  norm_num

lemma suma_dieciseis : 1 < (distribuir_tipos (907/10) tipos_consulta).2.1 := by
  have he : (0 : ℤ) < pyInt ((907 : ℚ)/10 * (1/4)) := by norm_num [pyInt]
  have hs : (0 : ℤ) < pyInt ((907 : ℚ)/10 * (7/20)) := by norm_num [pyInt]
  have hg : (0 : ℤ) < pyInt ((907 : ℚ)/10 * (2/5)) := by norm_num [pyInt]
  unfold tipos_consulta
  rw [distribuir_cons]
  simp only []
  rw [if_pos (by omega : 0 < (pyInt ((907 : ℚ)/10 * (1/4))).toNat)]
  rw [distribuir_cons]
  simp only []
  rw [if_pos (by omega : 0 < (pyInt ((907 : ℚ)/10 * (7/20))).toNat)]
  rw [distribuir_cons]
  simp only []
  rw [if_pos (by omega : 0 < (pyInt ((907 : ℚ)/10 * (2/5))).toNat)]
  have h1 := optimos_ge_uno (((pyInt ((907 : ℚ)/10 * (1/4))).toNat : ℕ) : ℚ) 2 "emergencia"
  have h2 := optimos_ge_uno (((pyInt ((907 : ℚ)/10 * (7/20))).toNat : ℕ) : ℚ) 2 "especializada"
  omega

/-- C2 counterexample: with the global cap set to 1, hour 16 needs at least
two staff (each per-type search returns ≥ 1 and at least two consultation
types have positive demand: demand 90.7 splits into 22/31/36), so the
unconstrained requirement exceeds the cap — yet the emitted hour is flagged
`es_factible = true`, because the flag is computed after the clamp.  The
claimed "feasible ⇔ requirement ≤ cap" (and "feasible=false on overflow")
is false. -/
theorem c2_counterexample :
    distribucion_hora 1 16 ∈ optimizar_distribucion_diaria 1 ∧
      (distribucion_hora 1 16).es_factible = true ∧
      1 < suma_medicos (distribucion_hora 1 16).distribucion_tipos := by
  have hmem : distribucion_hora 1 16 ∈ optimizar_distribucion_diaria 1 := by
    apply List.mem_map.mpr
    refine ⟨16, by decide, ?_⟩
    norm_num
  refine ⟨hmem, distribucion_hora_es_factible 1 16, ?_⟩
  rw [distribucion_hora_dist, ← distribuir_suma, demanda_dieciseis]
  exact suma_dieciseis

/-- C10: because `optimizar_distribucion_diaria` clamps `medicos_totales` to
the cap before computing `es_factible`, every emitted hour is flagged
feasible; consequently the report always has `es_implementable = true`,
`horas_factibles = 17` (all operating hours), and
`deficit_maximo_medicos = 0`, for every cap ≥ 1. -/
theorem c10_siempre_factible (cap : ℕ) (hcap : 1 ≤ cap) :
    (∀ r ∈ optimizar_distribucion_diaria cap, r.es_factible = true) ∧
      (generar_reporte_optimizacion cap).es_implementable = true ∧
      (generar_reporte_optimizacion cap).horas_factibles = 17 ∧
      (generar_reporte_optimizacion cap).deficit_maximo_medicos = 0 := by
  have hall : ∀ r ∈ optimizar_distribucion_diaria cap, r.es_factible = true := by
    intro r hr
    obtain ⟨n, _, rfl⟩ := List.mem_map.mp hr
    exact distribucion_hora_es_factible cap n
  refine ⟨hall, ?_, ?_, ?_⟩
  · unfold generar_reporte_optimizacion
    simp only []
    rw [List.all_eq_true]
    exact hall
  · unfold generar_reporte_optimizacion
    simp only []
    rw [List.filter_eq_self.mpr (fun a ha => hall a ha)]
    unfold optimizar_distribucion_diaria
    rw [List.length_map]
    rfl
  · unfold generar_reporte_optimizacion
    simp only []
    have hfil : (optimizar_distribucion_diaria cap).filter
        (fun d => decide (cap < d.medicos_asignados)) = [] := by
      rw [List.filter_eq_nil_iff]
      intro a ha
      obtain ⟨n, _, rfl⟩ := List.mem_map.mp ha
      simp only [decide_eq_true_eq, not_lt]
      exact distribucion_hora_asignados_le cap n
    rw [hfil]
    rfl

theorem c10_siempre_factible_witness :
    (1 : ℕ) ≤ 4318 ∧
      (generar_reporte_optimizacion 4318).es_implementable = true ∧
      (generar_reporte_optimizacion 4318).horas_factibles = 17 ∧
      (generar_reporte_optimizacion 4318).deficit_maximo_medicos = 0 :=
  ⟨by norm_num, (c10_siempre_factible 4318 (by norm_num)).2.1,
    (c10_siempre_factible 4318 (by norm_num)).2.2.1,
    (c10_siempre_factible 4318 (by norm_num)).2.2.2⟩
